import Mathlib

/- Shallow embedding of the vector kernel in src/ezdxf/math/vector.py.

   Python floats are modelled exactly: as rational numbers for the
   algebraic, comparison and indexing operations, and as real numbers
   for the trigonometric rotation code (rot_z_rad needs cos, sin, sqrt
   and atan2, which do not live in the rationals). -/

namespace ezdxf

/-- The immutable 3D vector of vector.py: components x, y, z
(the slots _x, _y, _z, exposed by the x, y, z properties). -/
@[ext]
structure Vector where
  x : ℚ
  y : ℚ
  z : ℚ
deriving DecidableEq

/-- A single Python argument as seen by Vector.decompose: a bare
non-iterable number, an ordered sequence (tuple or list) of numbers, or
another Vector instance. -/
inductive PyArg where
  | scalar (v : ℚ)
  | seq (xs : List ℚ)
  | vec (v : Vector)

/-- Vector.decompose restricted to the single-argument case (vector.py
lines 106-120). A Vector yields its components. For anything else the
code runs the unpacking `x, y, *z = data`: a non-iterable raises
TypeError, caught and re-raised as the invalid-arguments ValueError; a
sequence with fewer than two elements raises an uncaught ValueError from
the unpacking itself. With two or more elements, z is the list of
elements after the first two, and the code takes z[0] when that list is
nonempty, else 0. Both failure modes are one error value here. -/
def decompose1 : PyArg → Except Unit (ℚ × ℚ × ℚ)
  | .vec v => .ok (v.x, v.y, v.z)
  | .scalar _ => .error ()
  | .seq [] => .error ()
  | .seq [_] => .error ()
  | .seq (x :: y :: rest) => .ok (x, y, rest.headD 0)

/-- The Vector constructor on a canonical (x, y, z) triple, as produced
by decompose. -/
def ofTriple (t : ℚ × ℚ × ℚ) : Vector := ⟨t.1, t.2.1, t.2.2⟩

/-- Vector.xyz (vector.py lines 55-61): the raw component triple. -/
def xyz (v : Vector) : ℚ × ℚ × ℚ := (v.x, v.y, v.z)

/-- Vector.__add__, vector branch (vector.py lines 315-317): the operand
is decomposed into components and added component-wise. Stated on the
decomposed operand as a Vector. -/
def addVec (a b : Vector) : Vector := ⟨a.x + b.x, a.y + b.y, a.z + b.z⟩

/-- Vector.__sub__, vector branch (vector.py lines 340-342). -/
def subVec (a b : Vector) : Vector := ⟨a.x - b.x, a.y - b.y, a.z - b.z⟩

/-- Vector.__rsub__, scalar branch (vector.py lines 352-354), exactly as
written in the source: the y component is `scalar - self._y - scalar`,
not `scalar - self._y`. -/
def rsubScalar (s : ℚ) (v : Vector) : Vector :=
  ⟨s - v.x, s - v.y - s, s - v.z⟩

/-- Vector.__mul__ (vector.py lines 359-367): scale every component. -/
def mulScalar (v : Vector) (s : ℚ) : Vector := ⟨v.x * s, v.y * s, v.z * s⟩

/-- Vector.__rmul__ (vector.py lines 369-376): delegates to __mul__. -/
def rmulScalar (s : ℚ) (v : Vector) : Vector := mulScalar v s

/-- Vector.reversed / unary minus (vector.py lines 263-266). -/
def reversed (v : Vector) : Vector := mulScalar v (-1)

/-- Vector.lerp (vector.py lines 238-250): d = (Vector(other) - self) *
float(factor); return self + d. Stated on the decomposed operand. -/
def lerp (a b : Vector) (factor : ℚ) : Vector :=
  addVec a (mulScalar (subVec b a) factor)

/-- The default rel_tol of math.isclose, 1e-9, which vector.py line 8
does not override. -/
def relTol : ℚ := 1 / 1000000000

/-- The abs_tol bound to math.isclose at vector.py line 8, 1e-14. -/
def absTol : ℚ := 1 / 100000000000000

/-- vector.py line 8: isclose = partial(math.isclose, abs_tol=1e-14).
CPython defines math.isclose(a, b) as
abs(a-b) <= max(rel_tol * max(abs(a), abs(b)), abs_tol), and partial
only fixes abs_tol, so the default rel_tol = 1e-9 stays in force. -/
def pyIsclose (a b : ℚ) : Bool :=
  decide (|a - b| ≤ max (relTol * max |a| |b|) absTol)

/-- Vector.__eq__ (vector.py lines 277-285): decompose the operand and
compare all three components with pyIsclose. Stated on the decomposed
operand as a Vector. -/
def veq (v w : Vector) : Bool :=
  pyIsclose v.x w.x && pyIsclose v.y w.y && pyIsclose v.z w.z

/-- Vector.__lt__ (vector.py lines 287-302): exact comparisons, nested
as in the source. -/
def vlt (v w : Vector) : Bool :=
  if v.x = w.x then
    (if v.y = w.y then decide (v.z < w.z) else decide (v.y < w.y))
  else decide (v.x < w.x)

/-- Vector.__getitem__ (vector.py lines 154-155): `return
self.xyz[index]`, i.e. Python tuple indexing on the length-3 tuple:
negative indices count from the end, out-of-range indices raise
IndexError. -/
def getitem (v : Vector) (i : ℤ) : Except Unit ℚ :=
  let xs := [v.x, v.y, v.z]
  let j := if i < 0 then i + 3 else i
  if 0 ≤ j ∧ j < 3 then .ok (xs.getD j.toNat 0) else .error ()

/-- Vector.orthogonal (vector.py lines 228-236): (-y, x, z) when ccw,
else (y, -x, z). -/
def orthogonal (v : Vector) (ccw : Bool) : Vector :=
  if ccw then ⟨-v.y, v.x, v.z⟩ else ⟨v.y, -v.x, v.z⟩

/-- The real-valued model used for the trigonometric rotation code. -/
structure VecR where
  x : ℝ
  y : ℝ
  z : ℝ

/-- Vector.from_rad_angle (vector.py lines 80-82):
(cos(angle) * length, sin(angle) * length, 0). -/
noncomputable def from_rad_angle (angle len : ℝ) : VecR :=
  ⟨Real.cos angle * len, Real.sin angle * len, 0⟩

/-- Vector.magnitude_square (vector.py lines 177-180). -/
def magnitude_square (v : VecR) : ℝ := v.x * v.x + v.y * v.y + v.z * v.z

/-- Vector.magnitude (vector.py lines 165-167): magnitude_square ** 0.5
(real power). -/
noncomputable def magnitude (v : VecR) : ℝ := magnitude_square v ^ (0.5 : ℝ)

/-- Vector.angle_rad (vector.py lines 206-215): math.atan2(y, x), which
is the argument of the complex number x + y*i. -/
noncomputable def angle_radR (v : VecR) : ℝ := Complex.arg ⟨v.x, v.y⟩

/-- Vector.rot_z_rad (vector.py lines 438-450): project to the xy-plane,
re-synthesize from (angle_rad + angle) and the projected magnitude, and
carry the original z through. -/
noncomputable def rot_z_rad (v : VecR) (angle : ℝ) : VecR :=
  ⟨(from_rad_angle (angle_radR ⟨v.x, v.y, 0⟩ + angle) (magnitude ⟨v.x, v.y, 0⟩)).x,
   (from_rad_angle (angle_radR ⟨v.x, v.y, 0⟩ + angle) (magnitude ⟨v.x, v.y, 0⟩)).y,
   v.z⟩

/-- The Euclidean norm of the (x, y) projection; Vector.magnitude_xy
(vector.py lines 169-175) computes it with math.hypot, which is exactly
this in real arithmetic. -/
noncomputable def magnitude_xy (v : VecR) : ℝ := Real.sqrt (v.x * v.x + v.y * v.y)

/- ------------------------- helper lemmas ------------------------- -/

theorem pyIsclose_self (q : ℚ) : pyIsclose q q = true := by
  simp only [pyIsclose, decide_eq_true_eq, sub_self, abs_zero]
  exact le_max_of_le_right (by norm_num [absTol])

theorem veq_of_eq {v w : Vector} (h : v = w) : veq v w = true := by
  subst h
  simp [veq, pyIsclose_self]

theorem sqrt_scaled_circle (t m : ℝ) (hm : 0 ≤ m) :
    Real.sqrt ((Real.cos t * m) * (Real.cos t * m) +
      (Real.sin t * m) * (Real.sin t * m)) = m := by
  have h1 : (Real.cos t * m) * (Real.cos t * m) +
      (Real.sin t * m) * (Real.sin t * m) = m ^ 2 := by
    linear_combination m ^ 2 * Real.sin_sq_add_cos_sq t
  rw [h1, Real.sqrt_sq hm]

/- --------------------------- the claims --------------------------- -/

/-- C1: the right-hand scalar subtraction evaluated at the failing input
scalar = 1, vector = (0, 5, 0). The source (vector.py line 354) computes
the y component as `scalar - self._y - scalar`, giving (1, -5, 1),
while the documented behaviour other - self would give (1, -4, 1). -/
theorem C1_rsub_scalar_bug :
    rsubScalar 1 ⟨0, 5, 0⟩ = ⟨1, -5, 1⟩ ∧ rsubScalar 1 ⟨0, 5, 0⟩ ≠ ⟨1, -4, 1⟩ := by
  refine ⟨?_, ?_⟩
  · ext <;> norm_num [rsubScalar]
  · simp only [rsubScalar, ne_eq, Vector.mk.injEq]
    norm_num

/-- C2 counterexample: the claim says every single-argument sequence of a
length other than 2 or 3 fails, but the 4-element sequence (1, 2, 3, 4)
decomposes successfully to (1, 2, 3). -/
theorem C2_seq4_not_error :
    decompose1 (PyArg.seq [1, 2, 3, 4]) = Except.ok (1, 2, 3) ∧
    ([(1 : ℚ), 2, 3, 4].length = 2 ∨ [(1 : ℚ), 2, 3, 4].length = 3) = False := by
  constructor
  · rfl
  · simp

/-- C2 amended: a non-iterable scalar fails, sequences of length 0 or 1
fail, a length-2 sequence gives (x, y, 0), and any sequence of length 3
or more gives (x, y, third element), ignoring the rest; a Vector
argument yields its own components. -/
theorem C2_decompose1_cases :
    (∀ q : ℚ, decompose1 (PyArg.scalar q) = Except.error ()) ∧
    decompose1 (PyArg.seq []) = Except.error () ∧
    (∀ x : ℚ, decompose1 (PyArg.seq [x]) = Except.error ()) ∧
    (∀ x y : ℚ, decompose1 (PyArg.seq [x, y]) = Except.ok (x, y, 0)) ∧
    (∀ (x y z : ℚ) (rest : List ℚ),
      decompose1 (PyArg.seq (x :: y :: z :: rest)) = Except.ok (x, y, z)) ∧
    (∀ v : Vector, decompose1 (PyArg.vec v) = Except.ok (v.x, v.y, v.z)) :=
  ⟨fun _ => rfl, rfl, fun _ => rfl, fun _ _ => rfl, fun _ _ _ _ => rfl, fun _ => rfl⟩

/-- C3 counterexample: the vectors (10^9, 0, 0) and (10^9 + 1/2, 0, 0)
compare equal although their x components differ by 1/2, far more than
the absolute tolerance 1e-14: the default relative tolerance 1e-9 of
math.isclose is still in force. -/
theorem C3_rel_tol_leaks :
    veq ⟨1000000000, 0, 0⟩ ⟨1000000000 + 1 / 2, 0, 0⟩ = true ∧
    ¬ (|(1000000000 : ℚ) - (1000000000 + 1 / 2)| ≤ absTol) := by
  have habs : |(1000000000 : ℚ) - (1000000000 + 1 / 2)| = 1 / 2 := by
    rw [show (1000000000 : ℚ) - (1000000000 + 1 / 2) = -(1 / 2) by ring, abs_neg,
      abs_of_nonneg (by norm_num : (0 : ℚ) ≤ 1 / 2)]
  constructor
  · simp only [veq, pyIsclose_self, Bool.and_true]
    simp only [pyIsclose, decide_eq_true_eq]
    rw [habs]
    refine le_max_of_le_left ?_
    rw [relTol, abs_of_nonneg (by norm_num : (0 : ℚ) ≤ 1000000000),
      abs_of_nonneg (by norm_num : (0 : ℚ) ≤ 1000000000 + 1 / 2),
      max_eq_right (by norm_num : (1000000000 : ℚ) ≤ 1000000000 + 1 / 2)]
    norm_num
  · rw [habs]
    norm_num [absTol]

/-- C3 amended: v == w holds iff every component pair (a, b) satisfies
the full math.isclose test with abs_tol 1e-14 and the default rel_tol
1e-9, i.e. |a - b| <= max(1e-9 * max(|a|, |b|), 1e-14); the absolute
tolerance alone does not characterize equality. -/
theorem C3_eq_uses_rel_and_abs_tol (v w : Vector) :
    veq v w = true ↔
      (|v.x - w.x| ≤ max (relTol * max |v.x| |w.x|) absTol ∧
       |v.y - w.y| ≤ max (relTol * max |v.y| |w.y|) absTol ∧
       |v.z - w.z| ≤ max (relTol * max |v.z| |w.z|) absTol) := by
  simp [veq, pyIsclose, Bool.and_eq_true, decide_eq_true_eq, and_assoc]

/-- C4 counterexample: the claim says every index other than 0, 1, 2
fails, but Python tuple indexing accepts negative indices: index -1 on
the vector (1, 2, 3) returns the z component 3 instead of an error. -/
theorem C4_negative_index_ok :
    getitem ⟨1, 2, 3⟩ (-1) = Except.ok 3 := by
  rfl

/-- C4 amended: indices 0, 1, 2 return x, y, z; the negative indices
-1, -2, -3 return z, y, x (Python counts them from the end of the
tuple); every other integer index is an error. -/
theorem C4_getitem_cases (v : Vector) (i : ℤ) :
    getitem v i =
      (if i = 0 ∨ i = -3 then Except.ok v.x
       else if i = 1 ∨ i = -2 then Except.ok v.y
       else if i = 2 ∨ i = -1 then Except.ok v.z
       else Except.error ()) := by
  by_cases h0 : i = 0
  · subst h0; rfl
  by_cases h1 : i = 1
  · subst h1; rfl
  by_cases h2 : i = 2
  · subst h2; rfl
  by_cases hm1 : i = -1
  · subst hm1; rfl
  by_cases hm2 : i = -2
  · subst hm2; rfl
  by_cases hm3 : i = -3
  · subst hm3; rfl
  rw [if_neg (not_or.mpr ⟨h0, hm3⟩), if_neg (not_or.mpr ⟨h1, hm2⟩),
    if_neg (not_or.mpr ⟨h2, hm1⟩)]
  simp only [getitem]
  split_ifs with hneg hg hg
  · exact absurd hg (by omega)
  · rfl
  · exact absurd hg (by omega)
  · rfl

/-- C5: rot_z_rad carries the z component through unchanged and
preserves the Euclidean norm of the (x, y) projection exactly (in exact
real arithmetic), because the rotated vector is re-synthesized as
(cos(t) * m, sin(t) * m) with m the projected magnitude. -/
theorem C5_rot_z_preserves (v : VecR) (a : ℝ) :
    (rot_z_rad v a).z = v.z ∧
    magnitude_xy (rot_z_rad v a) = magnitude_xy v := by
  refine ⟨rfl, ?_⟩
  have hm : magnitude ⟨v.x, v.y, 0⟩ = Real.sqrt (v.x * v.x + v.y * v.y) := by
    show (v.x * v.x + v.y * v.y + 0 * 0 : ℝ) ^ (0.5 : ℝ) = _
    rw [show (0.5 : ℝ) = 1 / 2 by norm_num, ← Real.sqrt_eq_rpow]
    norm_num
  show Real.sqrt _ = Real.sqrt (v.x * v.x + v.y * v.y)
  dsimp only [rot_z_rad, from_rad_angle]
  rw [hm]
  exact sqrt_scaled_circle _ _ (Real.sqrt_nonneg _)

/-- C6: the less-than operator is exactly the lexicographic order on the
component triples, with exact equality and exact less-than tests and no
tolerance. -/
theorem C6_lt_lex (v w : Vector) :
    vlt v w = true ↔
      (v.x < w.x ∨ (v.x = w.x ∧ (v.y < w.y ∨ (v.y = w.y ∧ v.z < w.z)))) := by
  unfold vlt
  split_ifs with h1 h2
  · simp only [decide_eq_true_eq]
    constructor
    · intro h
      exact Or.inr ⟨h1, Or.inr ⟨h2, h⟩⟩
    · rintro (h | ⟨-, h | ⟨-, h⟩⟩)
      · exact absurd h1 (ne_of_lt h)
      · exact absurd h2 (ne_of_lt h)
      · exact h
  · simp only [decide_eq_true_eq]
    constructor
    · intro h
      exact Or.inr ⟨h1, Or.inl h⟩
    · rintro (h | ⟨-, h | ⟨h, -⟩⟩)
      · exact absurd h1 (ne_of_lt h)
      · exact h
      · exact absurd h h2
  · simp only [decide_eq_true_eq]
    constructor
    · intro h
      exact Or.inl h
    · rintro (h | ⟨h, -⟩)
      · exact h
      · exact absurd h h1

/-- C7: lerp returns exactly self + (other - self) * factor for every
factor, and at factor 0 and factor 1 the result compares structurally
equal to the respective endpoint. -/
theorem C7_lerp (a b : Vector) (f : ℚ) :
    lerp a b f = addVec a (mulScalar (subVec b a) f) ∧
    veq (lerp a b 0) a = true ∧
    veq (lerp a b 1) b = true := by
  refine ⟨rfl, ?_, ?_⟩
  · apply veq_of_eq
    ext <;> simp [lerp, addVec, mulScalar, subVec]
  · apply veq_of_eq
    ext <;> simp [lerp, addVec, mulScalar, subVec]

/-- C8: component-wise vector addition is commutative, and scalar
multiplication agrees in both operand orders (the reflected operator
delegates to the direct one), both up to structural equality. -/
theorem C8_comm (a b : Vector) (s : ℚ) :
    veq (addVec a b) (addVec b a) = true ∧
    veq (rmulScalar s a) (mulScalar a s) = true := by
  constructor
  · apply veq_of_eq
    ext <;> simp [addVec] <;> ring
  · exact veq_of_eq rfl

/-- C9: the xyz accessor round-trips through the single-argument
3-element-sequence construction path: decomposing the component triple
succeeds with the same components, and the rebuilt vector compares
structurally equal to the original. -/
theorem C9_roundtrip (v : Vector) :
    decompose1 (PyArg.seq [v.x, v.y, v.z]) = Except.ok (xyz v) ∧
    veq (ofTriple (xyz v)) v = true := by
  refine ⟨rfl, veq_of_eq rfl⟩

/-- C10: applying orthogonal twice with the same flag negates x and y
exactly and carries z through unchanged, for either flag; the result
equals the negated vector exactly when z = 0. -/
theorem C10_orthogonal_twice (v : Vector) (ccw : Bool) :
    orthogonal (orthogonal v ccw) ccw = ⟨-v.x, -v.y, v.z⟩ ∧
    (orthogonal (orthogonal v ccw) ccw = reversed v ↔ v.z = 0) := by
  have hz : v.z = -v.z ↔ v.z = 0 := by
    constructor
    · intro h
      linarith
    · intro h
      rw [h]
      ring
  cases ccw <;>
    simp [orthogonal, reversed, mulScalar, Vector.mk.injEq, mul_neg_one, hz]

end ezdxf
